import Mathlib

/-!
Shallow embedding of `tensorflow/compiler/mlir/tosa/transforms/legalize_utils.cc`
(namespace `mlir::tosa`): the TOSA legalization numeric helpers — rescale
builders, lookup-table builders, padding translators and constant/bias
introspection helpers — together with theorems checking the specification's
claims about them.

Modelling conventions:
 * C++ `double` computations are modelled over `ℚ` (exact-real abstraction);
   the properties proved here (entry counts, clamping ranges, split/reassembly
   of half-words, branch structure) are independent of floating rounding error,
   and every concrete counterexample below uses only values on which IEEE
   double arithmetic is exact.
 * `std::llround` / `std::round` round to nearest with halfway cases away from
   zero; they are modelled by `roundAway`.
 * Narrowing casts to `int32_t` / `int16_t` wrap two's-complement
   (`toInt32` / `toInt16`).  `>> 16` on a negative signed value is an
   arithmetic shift, i.e. floor division, which for the positive divisor
   `65536` coincides with Lean's `ℤ` division; `& 0xFFFF` on a two's-complement
   value is `% 65536` (Lean's `%` on `ℤ` is nonnegative for positive divisor).
 * `computeMultiplierAndShift` lives in `mlir/Dialect/Tosa/Utils/QuantUtils.h`
   (an external LLVM dependency, not part of this repository); the builders
   take it as an explicit function parameter `cms : ℚ → ℕ → ℤ × ℤ`
   (scale, width ↦ (multiplier, shift)).  No claim below depends on its value.
 * MLIR IR handles (`Value` operands, locations, the rewriter) carry no data
   the claims mention; an operand is modelled as an opaque `ℕ` id and each
   created `tosa::RescaleOp` as a record of the attributes the source passes
   to `rewriter.create<tosa::RescaleOp>`.
-/

namespace TosaLegalize

/-- Floor of a rational, computed on the numerator/denominator so that it is
kernel-reducible (`⌊q⌋` itself is stated through the `FloorRing` class). -/
def ratFloor (q : ℚ) : ℤ := q.num / (q.den : ℤ)

theorem ratFloor_eq (q : ℚ) : ratFloor q = ⌊q⌋ := Rat.floor_def.symm

/-- Round to nearest integer, halfway cases away from zero: the behaviour of
`std::round` / `std::llround` on a value the double computation represents
exactly. -/
def roundAway (q : ℚ) : ℤ :=
  if q < 0 then -ratFloor (-q + 1/2) else ratFloor (q + 1/2)

/-- Two's-complement wrap into the signed 32-bit range: C++
`static_cast<int32_t>` from a wider integer. -/
def toInt32 (z : ℤ) : ℤ := (z + 2147483648) % 4294967296 - 2147483648

/-- Two's-complement wrap into the signed 16-bit range: C++
`static_cast<int16_t>` from a wider integer. -/
def toInt16 (z : ℤ) : ℤ := (z + 32768) % 65536 - 32768

/-- `std::min(std::max(x, lo), hi)` on integers. -/
def clampI (x lo hi : ℤ) : ℤ := min (max x lo) hi

/- ----------------------------------------------------------------
   Lookup-table builders
   ---------------------------------------------------------------- -/

/-- Loop body of `getTosaConst8bitTable` at loop index `i` (`-256 ≤ i ≤ 256`):
dequantize, apply the sampled function, requantize with round-to-nearest,
add the output zero point and clamp to the signed 16-bit range. -/
def tosaConst8bitTableEntry (input_scale : ℚ) (input_zp : ℤ)
    (output_scale : ℚ) (output_zp : ℤ) (func : ℚ → ℚ) (i : ℤ) : ℤ :=
  let dequantized : ℚ := input_scale * ((i : ℚ) - (input_zp : ℚ))
  let transformed : ℚ := func dequantized
  let rescaled : ℤ := toInt32 (roundAway (transformed / output_scale))
  let quantized : ℤ := toInt32 (rescaled + output_zp)
  clampI quantized (-32768) 32767

/-- The table data `table_vec` built by `getTosaConst8bitTable`: one entry per
loop index `i = -256 .. 256`. -/
def getTosaConst8bitTable (input_scale : ℚ) (input_zp : ℤ)
    (output_scale : ℚ) (output_zp : ℤ) (func : ℚ → ℚ) : List ℤ :=
  (List.range 513).map (fun (k : ℕ) =>
    tosaConst8bitTableEntry input_scale input_zp output_scale output_zp func
      ((k : ℤ) - 256))

/-- Loop body of `getTosaConst16bitTable` at loop index `i` (`0 ≤ i ≤ 512`):
a sample at `min + i*step` corrected by half the midpoint-interpolation error,
then clamped to the signed 16-bit range. -/
def tosaConst16bitTableEntry (func : ℚ → ℚ) (min max : ℚ) (i : ℕ) : ℤ :=
  let step : ℚ := (max - min) / 512
  let half_step : ℚ := step / 2
  let sample_val : ℤ := toInt32 (roundAway (func (min + (i : ℚ) * step) * 32768))
  let midpoint_interp_val : ℤ :=
    roundAway ((func (min + ((i : ℚ) + 1) * step) * 32768 +
      (roundAway (func (min + (i : ℚ) * step) * 32768) : ℚ)) / 2)
  let midpoint_val : ℤ := roundAway (func (min + (i : ℚ) * step + half_step) * 32768)
  let midpoint_err : ℤ := midpoint_interp_val - midpoint_val
  let bias : ℤ := toInt32 (roundAway ((midpoint_err : ℚ) / 2))
  clampI (sample_val - bias) (-32768) 32767

/-- The table data `table_vec` built by `getTosaConst16bitTable`: the loop
`for (i = 0; i <= 512; i++)` pushes one entry per index, and afterwards one
more entry, the clamped sample at `max`, is pushed. -/
def getTosaConst16bitTable (func : ℚ → ℚ) (min max : ℚ) : List ℤ :=
  let body := (List.range 513).map (tosaConst16bitTableEntry func min max)
  let max_val : ℤ := toInt32 (roundAway (func max * 32768))
  body ++ [clampI max_val (-32768) 32767]

/-- The clamped 31-bit fixed-point sample of `getTosaConst32bitTable` at loop
index `i` (`-256 ≤ i ≤ 256`): dequantize, apply the function, truncate into
`[-1, 1]`, scale by `2^31`, round, and replace the unrepresentable `2^31`
by `2^31 - 1`. -/
def tosaConst32bitTableRescaled (input_scale : ℚ) (input_zp : ℤ)
    (func : ℚ → ℚ) (i : ℤ) : ℤ :=
  let dequantized : ℚ := input_scale * ((i : ℚ) - (input_zp : ℚ))
  let transformed : ℚ := func dequantized
  let truncated : ℚ := min (max transformed (-1)) 1
  let rescaled : ℤ := roundAway (truncated * 2147483648)
  if rescaled = 2147483648 then 2147483647 else rescaled

/-- Upper half-word entry stored by `getTosaConst32bitTable`:
`(rescaled >> 16) & 0xFFFF`, stored through the `int16_t` array. -/
def tosaConst32bitTableUpperEntry (input_scale : ℚ) (input_zp : ℤ)
    (func : ℚ → ℚ) (i : ℤ) : ℤ :=
  toInt16 ((tosaConst32bitTableRescaled input_scale input_zp func i / 65536) % 65536)

/-- Lower half-word entry stored by `getTosaConst32bitTable`:
`(rescaled & 0xFFFF) - 0x8000`, stored through the `int16_t` array. -/
def tosaConst32bitTableLowerEntry (input_scale : ℚ) (input_zp : ℤ)
    (func : ℚ → ℚ) (i : ℤ) : ℤ :=
  toInt16 (tosaConst32bitTableRescaled input_scale input_zp func i % 65536 - 32768)

/-- The data of `upper_table_array` built by `getTosaConst32bitTable`
(index `k` holds the entry for loop index `i = k - 256`). -/
def getTosaConst32bitTableUpper (input_scale : ℚ) (input_zp : ℤ)
    (func : ℚ → ℚ) : List ℤ :=
  (List.range 513).map (fun (k : ℕ) =>
    tosaConst32bitTableUpperEntry input_scale input_zp func ((k : ℤ) - 256))

/-- The data of `lower_table_array` built by `getTosaConst32bitTable`. -/
def getTosaConst32bitTableLower (input_scale : ℚ) (input_zp : ℤ)
    (func : ℚ → ℚ) : List ℤ :=
  (List.range 513).map (fun (k : ℕ) =>
    tosaConst32bitTableLowerEntry input_scale input_zp func ((k : ℤ) - 256))

/-- Reassembly of a 32-bit value from an upper/lower table entry pair, the way
the source's comment prescribes for the legalization consumer: add the `0x8000`
offset back to the lower entry, treat the upper entry as the high 16 bits. -/
def reassemble32 (upper lower : ℤ) : ℤ :=
  toInt32 ((upper % 65536) * 65536 + (lower + 32768))

/- ----------------------------------------------------------------
   Element types, tensor types and the rescale op record
   ---------------------------------------------------------------- -/

/-- `mlir::quant::UniformQuantizedType`, reduced to the projections the source
reads: `getScale`, `getZeroPoint`, `getStorageTypeIntegralWidth`. -/
structure UniformQuantizedType where
  scale : ℚ
  zero_point : ℤ
  storage_width : ℕ
deriving DecidableEq

/-- `mlir::quant::UniformQuantizedPerAxisType`, reduced to the projections the
source reads: `getScales` and the storage width. -/
structure UniformQuantizedPerAxisType where
  scales : List ℚ
  storage_width : ℕ
deriving DecidableEq

/-- The element type of a tensor, covering the cases the source dispatches on:
plain integers (`isInteger(w)`), 32-bit float, per-tensor uniform quantized and
per-axis quantized types.  `dyn_cast` to a quantized class succeeds exactly on
the corresponding constructors. -/
inductive ElemType where
  | int (width : ℕ)
  | float32
  | uniformQuant (q : UniformQuantizedType)
  | perAxisQuant (q : UniformQuantizedPerAxisType)
deriving DecidableEq

/-- `mlir::RankedTensorType`: a shape (int64 dimension sizes) and an element
type. -/
structure RankedTensorType where
  shape : List ℤ
  elem : ElemType
deriving DecidableEq

/-- The attributes the source passes to `rewriter.create<tosa::RescaleOp>`,
in order: output type, input operand, input/output zero-point attributes, the
multiplier and shift arrays, and the `scale32`, `double_round`, `per_channel`
boolean attributes. -/
structure RescaleOp where
  output_type : RankedTensorType
  input_val : ℕ
  input_zp : ℤ
  output_zp : ℤ
  multiplier : List ℤ
  shift : List ℤ
  scale32 : Bool
  double_round : Bool
  per_channel : Bool
deriving DecidableEq

/-- `isScale32`: the scale-width policy keyed on the output element type's
storage width. -/
def isScale32 (output_element_type : UniformQuantizedType) : Bool :=
  if output_element_type.storage_width = 8 then true else false

/- ----------------------------------------------------------------
   Rescale builders
   ---------------------------------------------------------------- -/

/-- `buildRescale`: computes one multiplier/shift pair through the external
quantizer `cms` at width 32 or 16 according to `scale32`, then creates a
rescale op with singleton multiplier/shift arrays and the per-channel flag
false.  The int64 zero points are passed through `getI32IntegerAttr`'s
`static_cast<int32_t>`. -/
def buildRescale (cms : ℚ → ℕ → ℤ × ℤ) (output_type : RankedTensorType)
    (input_val : ℕ) (scale : ℚ) (input_zp output_zp : ℤ)
    (double_round scale32 : Bool) : RescaleOp :=
  let scale_width : ℕ := if scale32 then 32 else 16
  let ms := cms scale scale_width
  { output_type := output_type, input_val := input_val,
    input_zp := toInt32 input_zp, output_zp := toInt32 output_zp,
    multiplier := [ms.1], shift := [ms.2],
    scale32 := scale32, double_round := double_round, per_channel := false }

/-- `buildRescaleFromInt32`: asserts that the input value's type is a ranked
tensor whose element type is exactly the 32-bit integer type, then delegates to
`buildRescale` with input zero-point 0, double rounding and 32-bit scale.
`input_type` is the result of the `dyn_cast<RankedTensorType>` on the input
value's type; `none` models a failed cast.  A failed assertion is modelled as
the `none` result. -/
def buildRescaleFromInt32 (cms : ℚ → ℕ → ℤ × ℤ)
    (output_type : RankedTensorType) (input_type : Option RankedTensorType)
    (input_val : ℕ) (output_scale : ℚ) (output_zp : ℤ) : Option RescaleOp :=
  match input_type with
  | some t =>
      if t.elem = ElemType.int 32 then
        some (buildRescale cms output_type input_val output_scale 0 output_zp
          true true)
      else none
  | none => none

/-- uint32 value of an int64, as in C++ `uint32_t x = (int64_t)v`. -/
def toUInt32Nat (z : ℤ) : ℕ := (z % 4294967296).toNat

/-- `buildRescaleOpConvOutput`: derives the conv-output rescale from the
input/weight/output quantization.  The source unconditionally dereferences the
`dyn_cast<UniformQuantizedType>` of the input and output element types, so the
embedding takes those casts' results (`input_qtype`, `output_qtype`) directly;
it then branches on the weight element type: per-tensor uniform quantized,
per-axis quantized, or anything else (the `emitOpError` branch returning a null
`Value`, modelled as `Except.error` with the emitted message). -/
def buildRescaleOpConvOutput (cms : ℚ → ℕ → ℤ × ℤ) (conv_val : ℕ)
    (input_qtype : UniformQuantizedType) (weight_elem : ElemType)
    (output_type : RankedTensorType) (output_qtype : UniformQuantizedType) :
    Except String RescaleOp :=
  let input_scale : ℚ := input_qtype.scale
  let output_zp : ℤ := output_qtype.zero_point
  let output_scale : ℚ := output_qtype.scale
  let scale32 : Bool := isScale32 output_qtype
  let scale_width : ℕ := if scale32 then 32 else 16
  match weight_elem with
  | ElemType.uniformQuant weight_per_tensor_qtype =>
      let weight_scale : ℚ := weight_per_tensor_qtype.scale
      let op_tensor_scale : ℚ := (input_scale * weight_scale) / output_scale
      let ms := cms op_tensor_scale scale_width
      Except.ok { output_type := output_type, input_val := conv_val,
                  input_zp := 0, output_zp := toInt32 output_zp,
                  multiplier := [ms.1], shift := [ms.2],
                  scale32 := scale32, double_round := true,
                  per_channel := false }
  | ElemType.perAxisQuant weight_per_channel_qtype =>
      let output_last_axis : ℕ := output_type.shape.length - 1
      let output_channels : ℕ := toUInt32Nat (output_type.shape.getD output_last_axis 0)
      let weight_scale_arr : List ℚ := weight_per_channel_qtype.scales
      let pairs : List (ℤ × ℤ) := (List.range output_channels).map (fun oc =>
        cms ((input_scale * weight_scale_arr.getD oc 0) / output_scale) scale_width)
      Except.ok { output_type := output_type, input_val := conv_val,
                  input_zp := 0, output_zp := toInt32 output_zp,
                  multiplier := pairs.map Prod.fst,
                  shift := pairs.map Prod.snd,
                  scale32 := scale32, double_round := true,
                  per_channel := true }
  | _ => Except.error "buildConvRescaleOp: unknown weight quantized type"

/- ----------------------------------------------------------------
   Transposed-convolution padding translator
   ---------------------------------------------------------------- -/

/-- Per-spatial-dimension body of `getTransposeConv2dPaddingValues`: the
effective filter size, the clamped total padding, and the `pad_before` half
that the function pushes into `computed_paddings`.  The source declares both
`effective_filter_size` and `total_padding` as `int`, so each `int64_t`
expression is narrowed to 32 bits (`toInt32`) before the positivity clamp and
the division.  `pad_after` is computed by the source but never emitted;
integer division is C++ `/`, which for the nonnegative clamped
`total_padding` agrees with Lean's division. -/
def transposeConv2dPadBefore (ifm_size filter_size ofm_size dim_stride
    dim_dilation : ℤ) : ℤ :=
  let effective_filter_size : ℤ := toInt32 ((filter_size - 1) * dim_dilation + 1)
  let total_padding0 : ℤ :=
    toInt32 ((ifm_size - 1) * dim_stride + effective_filter_size - ofm_size)
  let total_padding : ℤ := if total_padding0 > 0 then total_padding0 else 0
  total_padding / 2

/-- `getTransposeConv2dPaddingValues`: loops over the two spatial dimensions,
pushing only `pad_before` for each, sets the explicit padding attribute and
returns `true`.  The spatial sizes of the input/filter/output tensors and the
per-dimension stride/dilation attributes are supplied as pairs
(dimension X, dimension Y). -/
def getTransposeConv2dPaddingValues (input_size filter_size output_size
    stride dilation : ℤ × ℤ) : Bool × List ℤ :=
  let computed_paddings : List ℤ :=
    [transposeConv2dPadBefore input_size.1 filter_size.1 output_size.1
       stride.1 dilation.1,
     transposeConv2dPadBefore input_size.2 filter_size.2 output_size.2
       stride.2 dilation.2]
  (true, computed_paddings)

/-- The padding formula as the specification words it: `total_padding =
max(0, (input_size-1)*stride + effective_filter_size - output_size)` with
`effective_filter_size = (filter_size-1)*dilation + 1`, and `pad_before =
total_padding / 2` by floor division.  Stated separately from the embedding so
the two can be compared. -/
def specTransposePadBefore (input_size filter_size output_size stride
    dilation : ℤ) : ℤ :=
  (max 0 ((input_size - 1) * stride + ((filter_size - 1) * dilation + 1)
    - output_size)) / 2

/- ----------------------------------------------------------------
   Constant introspection / bias dequantization
   ---------------------------------------------------------------- -/

/-- The raw data of an MLIR `ElementsAttr` (its element values). -/
abbrev ElementsAttr := List ℤ

/-- The operation defining a value, as far as `getDefiningOpConstElementsAttr`
inspects it: a `TFL::QConstOp` or `tosa::ConstOp` (whose `value()` attribute
may or may not be an `ElementsAttr`), some other operation, or no defining
operation at all (a block argument). -/
inductive DefiningOp where
  | qconstOp (value : Option ElementsAttr)
  | tosaConstOp (value : Option ElementsAttr)
  | otherOp
deriving DecidableEq

/-- An MLIR `Value` as the bias helpers see it: its ranked tensor type and its
defining operation. -/
structure IRValue where
  type : RankedTensorType
  defining_op : Option DefiningOp
deriving DecidableEq

/-- `getDefiningOpConstElementsAttr`: the constant data of the defining op if
it is a `TFL::QConstOp` or `tosa::ConstOp`, otherwise `nullptr`. -/
def getDefiningOpConstElementsAttr (input : IRValue) : Option ElementsAttr :=
  match input.defining_op with
  | none => none
  | some (DefiningOp.qconstOp v) => v
  | some (DefiningOp.tosaConstOp v) => v
  | some DefiningOp.otherOp => none

/-- `dyn_cast<mlir::quant::QuantizedType>` on an element type, keeping the
`getStorageTypeIntegralWidth` projection the source reads from the result. -/
def ElemType.quantStorageWidth : ElemType → Option ℕ
  | ElemType.uniformQuant q => some q.storage_width
  | ElemType.perAxisQuant q => some q.storage_width
  | _ => none

/-- `getUnquantizedBias`: when the input's element type carries quantized
metadata and the input is statically a constant, re-emit the constant data as
a fresh `tosa::ConstOp` at the raw storage integer type and the same shape;
otherwise return the input unchanged. -/
def getUnquantizedBias (input : IRValue) : IRValue :=
  match input.type.elem.quantStorageWidth, getDefiningOpConstElementsAttr input with
  | some w, some attr =>
      { type := { shape := input.type.shape, elem := ElemType.int w },
        defining_op := some (DefiningOp.tosaConstOp (some attr)) }
  | some _, none => input
  | none, _ => input

/- ----------------------------------------------------------------
   Helper lemmas
   ---------------------------------------------------------------- -/

theorem clampI_le (x lo hi : ℤ) : clampI x lo hi ≤ hi := min_le_right _ _

theorem le_clampI (x lo hi : ℤ) (h : lo ≤ hi) : lo ≤ clampI x lo hi :=
  le_min (le_max_right _ _) h

theorem floor_half_eq_zero : ⌊(1/2 : ℚ)⌋ = 0 := by
  apply Int.floor_eq_iff.mpr
  norm_num

theorem roundAway_le {q : ℚ} {n : ℤ} (h : q ≤ (n : ℚ)) : roundAway q ≤ n := by
  unfold roundAway
  rw [ratFloor_eq, ratFloor_eq]
  split
  · rename_i hq
    by_cases hn : 0 ≤ n
    · have : (0 : ℤ) ≤ ⌊-q + 1/2⌋ := Int.floor_nonneg.mpr (by linarith)
      omega
    · have h2 : ⌊((-n : ℤ) : ℚ) + 1/2⌋ ≤ ⌊-q + 1/2⌋ := by
        apply Int.floor_mono
        push_cast
        linarith
      rw [Int.floor_int_add] at h2
      have h3 := floor_half_eq_zero
      omega
  · have h2 : ⌊q + 1/2⌋ ≤ ⌊(n : ℤ) + (1/2 : ℚ)⌋ := Int.floor_mono (by linarith)
    rw [Int.floor_int_add] at h2
    have h3 := floor_half_eq_zero
    omega

theorem le_roundAway {q : ℚ} {n : ℤ} (h : (n : ℚ) ≤ q) : n ≤ roundAway q := by
  unfold roundAway
  rw [ratFloor_eq, ratFloor_eq]
  split
  · rename_i hq
    have h1 : ⌊-q + 1/2⌋ ≤ ⌊((-n : ℤ) : ℚ) + 1/2⌋ := by
      apply Int.floor_mono
      push_cast
      linarith
    rw [Int.floor_int_add] at h1
    have h3 := floor_half_eq_zero
    omega
  · rename_i hq
    push_neg at hq
    have h1 : ⌊(n : ℤ) + (1/2 : ℚ)⌋ ≤ ⌊q + 1/2⌋ := Int.floor_mono (by linarith)
    rw [Int.floor_int_add] at h1
    have h3 := floor_half_eq_zero
    omega

theorem getD_map_range (g : ℕ → ℤ) {n k : ℕ} (hk : k < n) :
    ((List.range n).map g).getD k 0 = g k := by
  rw [List.getD_eq_getElem _ _ (by simpa using hk)]
  simp

theorem toInt32_eq_self {z : ℤ} (h1 : -2147483648 ≤ z) (h2 : z ≤ 2147483647) :
    toInt32 z = z := by
  unfold toInt32
  omega

/-- The per-dimension body of the transposed-convolution padding translator
computes exactly the specification's formula whenever the two intermediate
values the source narrows to 32-bit `int` — the effective filter size and the
unclamped total padding — lie in the signed 32-bit range. -/
theorem transposeConv2dPadBefore_eq_spec (a b c d e : ℤ)
    (h1 : -2147483648 ≤ (b - 1) * e + 1)
    (h2 : (b - 1) * e + 1 ≤ 2147483647)
    (h3 : -2147483648 ≤ (a - 1) * d + ((b - 1) * e + 1) - c)
    (h4 : (a - 1) * d + ((b - 1) * e + 1) - c ≤ 2147483647) :
    transposeConv2dPadBefore a b c d e = specTransposePadBefore a b c d e := by
  simp only [transposeConv2dPadBefore, specTransposePadBefore]
  rw [toInt32_eq_self h1 h2, toInt32_eq_self h3 h4]
  rcases le_or_lt ((a - 1) * d + ((b - 1) * e + 1) - c) 0 with h | h
  · rw [if_neg (by omega), max_eq_left h]
  · rw [if_pos h, max_eq_right h.le]

/- ----------------------------------------------------------------
   Claim theorems
   ---------------------------------------------------------------- -/

/-- C1: the 8-bit table builder and both half-word tables of the 32-bit
builder produce exactly 513 entries, but the 16-bit builder's table data has
514 entries — its loop `for (i = 0; i <= 512; i++)` already pushes 513
entries and the clamped sample at `max` is pushed afterwards as a 514th —
contradicting both the claim and the 513-element tensor type the same
function declares for the constant.  This evaluates the code at the
divergence. -/
theorem C1_table_entry_counts (input_scale : ℚ) (input_zp : ℤ)
    (output_scale : ℚ) (output_zp : ℤ) (func : ℚ → ℚ) (min max : ℚ) :
    (getTosaConst8bitTable input_scale input_zp output_scale output_zp
      func).length = 513 ∧
    (getTosaConst32bitTableUpper input_scale input_zp func).length = 513 ∧
    (getTosaConst32bitTableLower input_scale input_zp func).length = 513 ∧
    (getTosaConst16bitTable func min max).length = 514 := by
  refine ⟨?_, ?_, ?_, ?_⟩
  · simp only [getTosaConst8bitTable, List.length_map, List.length_range]
  · simp only [getTosaConst32bitTableUpper, List.length_map, List.length_range]
  · simp only [getTosaConst32bitTableLower, List.length_map, List.length_range]
  · simp only [getTosaConst16bitTable, List.length_append, List.length_map,
      List.length_range, List.length_singleton]

/-- C6: `isScale32` returns true exactly when the output storage width is 8
bits. -/
theorem C6_isScale32_iff_width8 (q : UniformQuantizedType) :
    isScale32 q = true ↔ q.storage_width = 8 := by
  simp [isScale32]

/-- C10: the transposed-convolution padding translator returns success for
every combination of spatial input/filter/output sizes, strides and
dilations; it has no failure branch. -/
theorem C10_transposeConv2dPadding_always_succeeds
    (input_size filter_size output_size stride dilation : ℤ × ℤ) :
    (getTransposeConv2dPaddingValues input_size filter_size output_size
      stride dilation).1 = true := rfl

/-- C3 (amended): per spatial dimension the transposed-convolution padding
translator computes `pad_before = max(0, (input-1)*stride +
((filter-1)*dilation + 1) - output) / 2` (floor division) whenever the
effective filter size and the unclamped total padding — both narrowed by the
source to 32-bit `int` — lie in the signed 32-bit range; it emits only the
two `pad_before` values (a sequence of length 2, not 4); for input=2,
filter=3, stride=2, output=4, dilation=1 the emitted value is 0.  (Without
the range proviso the formula fails: see the counterexample.) -/
theorem C3_transposeConv2dPadding_formula
    (input_size filter_size output_size stride dilation : ℤ × ℤ)
    (hx1 : -2147483648 ≤ (filter_size.1 - 1) * dilation.1 + 1)
    (hx2 : (filter_size.1 - 1) * dilation.1 + 1 ≤ 2147483647)
    (hx3 : -2147483648 ≤ (input_size.1 - 1) * stride.1 +
      ((filter_size.1 - 1) * dilation.1 + 1) - output_size.1)
    (hx4 : (input_size.1 - 1) * stride.1 +
      ((filter_size.1 - 1) * dilation.1 + 1) - output_size.1 ≤ 2147483647)
    (hy1 : -2147483648 ≤ (filter_size.2 - 1) * dilation.2 + 1)
    (hy2 : (filter_size.2 - 1) * dilation.2 + 1 ≤ 2147483647)
    (hy3 : -2147483648 ≤ (input_size.2 - 1) * stride.2 +
      ((filter_size.2 - 1) * dilation.2 + 1) - output_size.2)
    (hy4 : (input_size.2 - 1) * stride.2 +
      ((filter_size.2 - 1) * dilation.2 + 1) - output_size.2 ≤ 2147483647) :
    (getTransposeConv2dPaddingValues input_size filter_size output_size
        stride dilation).2 =
      [specTransposePadBefore input_size.1 filter_size.1 output_size.1
         stride.1 dilation.1,
       specTransposePadBefore input_size.2 filter_size.2 output_size.2
         stride.2 dilation.2] ∧
    (getTransposeConv2dPaddingValues input_size filter_size output_size
        stride dilation).2.length = 2 ∧
    (getTransposeConv2dPaddingValues (2, 2) (3, 3) (4, 4) (2, 2)
        (1, 1)).2 = [0, 0] := by
  refine ⟨?_, rfl, by decide⟩
  simp only [getTransposeConv2dPaddingValues,
    transposeConv2dPadBefore_eq_spec _ _ _ _ _ hx1 hx2 hx3 hx4,
    transposeConv2dPadBefore_eq_spec _ _ _ _ _ hy1 hy2 hy3 hy4]

/-- Witness for C3 at the claim's own concrete instance input=2, filter=3,
output=4, stride=2, dilation=1 on both spatial dimensions (all intermediates
well inside the 32-bit range). -/
theorem C3_witness :
    (getTransposeConv2dPaddingValues (2, 2) (3, 3) (4, 4) (2, 2)
        (1, 1)).2 =
      [specTransposePadBefore 2 3 4 2 1, specTransposePadBefore 2 3 4 2 1] ∧
    (getTransposeConv2dPaddingValues (2, 2) (3, 3) (4, 4) (2, 2)
        (1, 1)).2.length = 2 ∧
    (getTransposeConv2dPaddingValues (2, 2) (3, 3) (4, 4) (2, 2)
        (1, 1)).2 = [0, 0] :=
  C3_transposeConv2dPadding_formula (2, 2) (3, 3) (4, 4) (2, 2) (1, 1)
    (by norm_num) (by norm_num) (by norm_num) (by norm_num)
    (by norm_num) (by norm_num) (by norm_num) (by norm_num)

/-- C3 counterexample: at input size 3221225472 (with filter 1, output 1,
stride 1, dilation 1) the source narrows the int64 total padding 3221225471
to the negative 32-bit value -1073741825, clamps it to 0 and emits 0, while
the claimed formula gives 1610612735 — so the for-every-input equality fails. -/
theorem C3_counterexample :
    (getTransposeConv2dPaddingValues (3221225472, 3221225472) (1, 1) (1, 1)
        (1, 1) (1, 1)).2 ≠
      [specTransposePadBefore 3221225472 1 1 1 1,
       specTransposePadBefore 3221225472 1 1 1 1] := by
  decide

/-- C9: bias dequantization returns a value that is statically constant but
carries no quantized metadata unchanged, hence is idempotent on it. -/
theorem C9_getUnquantizedBias_idempotent (v : IRValue) (a : ElementsAttr)
    (_hconst : getDefiningOpConstElementsAttr v = some a)
    (hunq : v.type.elem.quantStorageWidth = none) :
    getUnquantizedBias v = v ∧
    getUnquantizedBias (getUnquantizedBias v) = getUnquantizedBias v := by
  have h1 : getUnquantizedBias v = v := by
    unfold getUnquantizedBias
    rw [hunq]
  exact ⟨h1, by rw [h1, h1]⟩

/-- Witness for C9 at a concrete unquantized int32 constant of shape `[3]`
holding `[1, 2, 3]`. -/
theorem C9_witness :
    getUnquantizedBias ⟨⟨[3], ElemType.int 32⟩,
        some (DefiningOp.tosaConstOp (some [1, 2, 3]))⟩ =
      ⟨⟨[3], ElemType.int 32⟩,
        some (DefiningOp.tosaConstOp (some [1, 2, 3]))⟩ ∧
    getUnquantizedBias (getUnquantizedBias ⟨⟨[3], ElemType.int 32⟩,
        some (DefiningOp.tosaConstOp (some [1, 2, 3]))⟩) =
      getUnquantizedBias ⟨⟨[3], ElemType.int 32⟩,
        some (DefiningOp.tosaConstOp (some [1, 2, 3]))⟩ :=
  C9_getUnquantizedBias_idempotent _ [1, 2, 3] rfl rfl

/-- C5: every entry stored by the 8-bit and 16-bit table builders lies within
the signed 16-bit range [-32768, 32767], for arbitrary sampling functions,
scales, zero points and domains. -/
theorem C5_entries_in_int16_range (input_scale : ℚ) (input_zp : ℤ)
    (output_scale : ℚ) (output_zp : ℤ) (func8 func16 : ℚ → ℚ) (min max : ℚ)
    (e8 e16 : ℤ)
    (h8 : e8 ∈ getTosaConst8bitTable input_scale input_zp output_scale
      output_zp func8)
    (h16 : e16 ∈ getTosaConst16bitTable func16 min max) :
    (-32768 ≤ e8 ∧ e8 ≤ 32767) ∧ (-32768 ≤ e16 ∧ e16 ≤ 32767) := by
  constructor
  · simp only [getTosaConst8bitTable] at h8
    obtain ⟨k, _, rfl⟩ := List.mem_map.mp h8
    exact ⟨le_clampI _ _ _ (by norm_num), clampI_le _ _ _⟩
  · simp only [getTosaConst16bitTable] at h16
    rcases List.mem_append.mp h16 with h | h
    · obtain ⟨k, _, rfl⟩ := List.mem_map.mp h
      exact ⟨le_clampI _ _ _ (by norm_num), clampI_le _ _ _⟩
    · rw [List.mem_singleton] at h
      subst h
      exact ⟨le_clampI _ _ _ (by norm_num), clampI_le _ _ _⟩

/-- Witness for C5: both builders sampled on the constant function `10^9`
(a value far outside the 16-bit range) store the clamped entry 32767. -/
theorem C5_witness :
    (((-32768 : ℤ) ≤ 32767 ∧ (32767 : ℤ) ≤ 32767) ∧
      ((-32768 : ℤ) ≤ 32767 ∧ (32767 : ℤ) ≤ 32767)) :=
  C5_entries_in_int16_range 1 0 1 0 (fun _ => 1000000000)
    (fun _ => 1000000000) 0 1 32767 32767
    (by
      simp only [getTosaConst8bitTable]
      refine List.mem_map.mpr ⟨0, List.mem_range.mpr (by norm_num), ?_⟩
      norm_num [tosaConst8bitTableEntry, roundAway, ratFloor_eq, toInt32,
        clampI, min_def, max_def])
    (by
      simp only [getTosaConst16bitTable]
      refine List.mem_append.mpr (Or.inl ?_)
      refine List.mem_map.mpr ⟨0, List.mem_range.mpr (by norm_num), ?_⟩
      norm_num [tosaConst16bitTableEntry, roundAway, ratFloor_eq, toInt32,
        clampI, min_def, max_def])

/-- C7: the demote-from-wide rescale builder requires a ranked input whose
element type is exactly i32 (otherwise the assertion fails and no result is
constructed), and on every input satisfying the precondition it emits a
rescale with input zero-point 0, double rounding enabled and the 32-bit
scale path selected. -/
theorem C7_buildRescaleFromInt32_contract (cms : ℚ → ℕ → ℤ × ℤ)
    (output_type : RankedTensorType) (input_type : Option RankedTensorType)
    (input_val : ℕ) (output_scale : ℚ) (output_zp : ℤ) :
    ((∀ t, input_type = some t → t.elem ≠ ElemType.int 32) →
      buildRescaleFromInt32 cms output_type input_type input_val output_scale
        output_zp = none) ∧
    (∀ t, input_type = some t → t.elem = ElemType.int 32 →
      ∃ r, buildRescaleFromInt32 cms output_type input_type input_val
          output_scale output_zp = some r ∧
        r.input_zp = 0 ∧ r.double_round = true ∧ r.scale32 = true) := by
  constructor
  · intro hne
    cases input_type with
    | none => rfl
    | some t => simp [buildRescaleFromInt32, hne t rfl]
  · intro t ht helem
    subst ht
    refine ⟨buildRescale cms output_type input_val output_scale 0 output_zp
      true true, ?_, ?_, rfl, rfl⟩
    · simp [buildRescaleFromInt32, helem]
    · simp [buildRescale, toInt32]

/-- Witness for C7: an i16 input is rejected, an i32 input yields a rescale
with zero input zero-point, double rounding and 32-bit scale. -/
theorem C7_witness :
    buildRescaleFromInt32 (fun _ _ => (5, 3)) ⟨[2], ElemType.int 8⟩
        (some ⟨[2], ElemType.int 16⟩) 0 1 7 = none ∧
    ∃ r, buildRescaleFromInt32 (fun _ _ => (5, 3)) ⟨[2], ElemType.int 8⟩
        (some ⟨[2], ElemType.int 32⟩) 0 1 7 = some r ∧
      r.input_zp = 0 ∧ r.double_round = true ∧ r.scale32 = true := by
  constructor
  · refine (C7_buildRescaleFromInt32_contract _ _ _ _ _ _).1 ?_
    intro t ht
    obtain rfl : (⟨[2], ElemType.int 16⟩ : RankedTensorType) = t := by
      injection ht
    decide
  · exact (C7_buildRescaleFromInt32_contract _ _ _ _ _ _).2 _ rfl rfl

/-- C8: when the weight element type is neither per-tensor uniform quantized
nor per-axis quantized, the conv-output rescale builder reports the
`unknown weight quantized type` diagnostic, creates no rescale op and
returns the null (error) result. -/
theorem C8_convRescale_unknown_weight (cms : ℚ → ℕ → ℤ × ℤ) (conv_val : ℕ)
    (input_qtype output_qtype : UniformQuantizedType) (weight_elem : ElemType)
    (output_type : RankedTensorType)
    (h1 : ∀ q, weight_elem ≠ ElemType.uniformQuant q)
    (h2 : ∀ q, weight_elem ≠ ElemType.perAxisQuant q) :
    buildRescaleOpConvOutput cms conv_val input_qtype weight_elem output_type
      output_qtype =
      Except.error "buildConvRescaleOp: unknown weight quantized type" := by
  cases weight_elem with
  | int w => rfl
  | float32 => rfl
  | uniformQuant wq => exact absurd rfl (h1 wq)
  | perAxisQuant wq => exact absurd rfl (h2 wq)

/-- Witness for C8 at a float32 weight element type. -/
theorem C8_witness :
    buildRescaleOpConvOutput (fun _ _ => (5, 3)) 0 ⟨1, 0, 8⟩ ElemType.float32
        ⟨[2], ElemType.int 8⟩ ⟨1, 0, 8⟩ =
      Except.error "buildConvRescaleOp: unknown weight quantized type" :=
  C8_convRescale_unknown_weight _ _ _ _ _ _
    (fun _ h => ElemType.noConfusion h) (fun _ h => ElemType.noConfusion h)

/-- C2: with a per-axis quantized weight element type and N the trailing
dimension of the output shape, the conv-output rescale builder emits exactly
N multiplier entries and N shift entries — the pair for channel c being the
quantizer's output on `(input_scale * weight_scale[c]) / output_scale` at the
width the `isScale32` policy selects — and sets the per-channel flag. -/
theorem C2_convRescale_perChannel (cms : ℚ → ℕ → ℤ × ℤ) (conv_val : ℕ)
    (input_qtype output_qtype : UniformQuantizedType)
    (wq : UniformQuantizedPerAxisType) (output_type : RankedTensorType)
    (N : ℕ)
    (hN : output_type.shape.getD (output_type.shape.length - 1) 0 = (N : ℤ))
    (hN32 : N < 4294967296) :
    ∃ r, buildRescaleOpConvOutput cms conv_val input_qtype
        (ElemType.perAxisQuant wq) output_type output_qtype = Except.ok r ∧
      r.multiplier.length = N ∧ r.shift.length = N ∧ r.per_channel = true ∧
      ∀ c, c < N →
        r.multiplier.getD c 0 =
          (cms ((input_qtype.scale * wq.scales.getD c 0) / output_qtype.scale)
            (if isScale32 output_qtype then 32 else 16)).1 ∧
        r.shift.getD c 0 =
          (cms ((input_qtype.scale * wq.scales.getD c 0) / output_qtype.scale)
            (if isScale32 output_qtype then 32 else 16)).2 := by
  have hchan :
      toUInt32Nat (output_type.shape.getD (output_type.shape.length - 1) 0)
        = N := by
    rw [hN]
    unfold toUInt32Nat
    rw [Int.emod_eq_of_lt (by positivity) (by exact_mod_cast hN32)]
    simp
  simp only [buildRescaleOpConvOutput, hchan]
  refine ⟨_, rfl, ?_, ?_, rfl, ?_⟩
  · simp
  · simp
  · intro c hc
    constructor
    · dsimp only
      rw [List.map_map, getD_map_range _ hc]
      rfl
    · dsimp only
      rw [List.map_map, getD_map_range _ hc]
      rfl

/-- Witness for C2: three output channels with distinct weight scales yield
three multiplier/shift pairs and the per-channel flag. -/
theorem C2_witness :
    ∃ r, buildRescaleOpConvOutput (fun _ _ => ((5 : ℤ), (3 : ℤ))) 0
        ⟨2, 1, 8⟩ (ElemType.perAxisQuant ⟨[3/2, 5/2, 7/2], 8⟩)
        ⟨[1, 3], ElemType.int 8⟩ ⟨4, 2, 8⟩ = Except.ok r ∧
      r.multiplier.length = 3 ∧ r.shift.length = 3 ∧ r.per_channel = true ∧
      ∀ c, c < 3 → r.multiplier.getD c 0 = 5 ∧ r.shift.getD c 0 = 3 :=
  C2_convRescale_perChannel _ _ _ _ _ _ 3 rfl (by norm_num)

theorem roundAway_truncated_range (v : ℚ) :
    -2147483648 ≤ roundAway (min (max v (-1)) 1 * 2147483648) ∧
    roundAway (min (max v (-1)) 1 * 2147483648) ≤ 2147483648 := by
  have h1 : min (max v (-1)) 1 ≤ 1 := min_le_right _ _
  have h2 : (-1 : ℚ) ≤ min (max v (-1)) 1 :=
    le_min (le_max_right _ _) (by norm_num)
  constructor
  · apply le_roundAway
    push_cast
    nlinarith
  · apply roundAway_le
    push_cast
    nlinarith

/-- The clamped 31-bit sample always lies in the signed 32-bit range: the
explicit test replaces `2^31` by `2^31 - 1`, and no larger value can arise
since the truncated input lies in `[-1, 1]`. -/
theorem tosaConst32bitTableRescaled_range (input_scale : ℚ) (input_zp : ℤ)
    (func : ℚ → ℚ) (i : ℤ) :
    -2147483648 ≤ tosaConst32bitTableRescaled input_scale input_zp func i ∧
    tosaConst32bitTableRescaled input_scale input_zp func i ≤ 2147483647 := by
  have h := roundAway_truncated_range
    (func (input_scale * ((i : ℚ) - (input_zp : ℚ))))
  simp only [tosaConst32bitTableRescaled]
  split
  · norm_num
  · rename_i hne
    omega

/-- Splitting a signed 32-bit value into the stored upper/lower half-word
entries and reassembling them recovers the value. -/
theorem split_reassemble32 (r : ℤ) (h1 : -2147483648 ≤ r)
    (h2 : r ≤ 2147483647) :
    reassemble32 (toInt16 ((r / 65536) % 65536))
      (toInt16 (r % 65536 - 32768)) = r := by
  unfold reassemble32 toInt16 toInt32
  omega

/-- C4 (amended): every upper/lower entry pair emitted by the 32-bit table
builder reassembles to a value in the signed 32-bit range `[-2^31, 2^31-1]`
— in particular never above `2^31 - 1`; a transformed value of exactly +1.0,
which quantizes to `2^31`, is clamped down to `2^31 - 1` before being split.
(The original claim's "never exceeds `2^31 - 1` in magnitude" fails at the
representable value `-2^31`, reached when the transformed value is -1.0.) -/
theorem C4_reassembled_in_int32_range (input_scale : ℚ) (input_zp : ℤ)
    (func : ℚ → ℚ) (k : ℕ) (hk : k < 513) :
    -2147483648 ≤ reassemble32
        ((getTosaConst32bitTableUpper input_scale input_zp func).getD k 0)
        ((getTosaConst32bitTableLower input_scale input_zp func).getD k 0) ∧
    reassemble32
        ((getTosaConst32bitTableUpper input_scale input_zp func).getD k 0)
        ((getTosaConst32bitTableLower input_scale input_zp func).getD k 0)
      ≤ 2147483647 ∧
    (func (input_scale * ((((k : ℤ) - 256 : ℤ) : ℚ) - (input_zp : ℚ))) = 1 →
      reassemble32
        ((getTosaConst32bitTableUpper input_scale input_zp func).getD k 0)
        ((getTosaConst32bitTableLower input_scale input_zp func).getD k 0)
      = 2147483647) := by
  have hu : (getTosaConst32bitTableUpper input_scale input_zp func).getD k 0
      = tosaConst32bitTableUpperEntry input_scale input_zp func
          ((k : ℤ) - 256) := by
    simp only [getTosaConst32bitTableUpper]
    exact getD_map_range _ hk
  have hl : (getTosaConst32bitTableLower input_scale input_zp func).getD k 0
      = tosaConst32bitTableLowerEntry input_scale input_zp func
          ((k : ℤ) - 256) := by
    simp only [getTosaConst32bitTableLower]
    exact getD_map_range _ hk
  have hr := tosaConst32bitTableRescaled_range input_scale input_zp func
    ((k : ℤ) - 256)
  have hre : reassemble32
      (tosaConst32bitTableUpperEntry input_scale input_zp func ((k : ℤ) - 256))
      (tosaConst32bitTableLowerEntry input_scale input_zp func ((k : ℤ) - 256))
      = tosaConst32bitTableRescaled input_scale input_zp func ((k : ℤ) - 256) :=
    split_reassemble32 _ hr.1 hr.2
  rw [hu, hl, hre]
  refine ⟨hr.1, hr.2, ?_⟩
  intro hfunc
  simp only [tosaConst32bitTableRescaled, hfunc]
  norm_num [roundAway, ratFloor_eq, min_def, max_def]

/-- Witness for C4 at the constant function +1.0: the entry pair at index 256
reassembles to exactly `2^31 - 1`. -/
theorem C4_witness :
    -2147483648 ≤ reassemble32
        ((getTosaConst32bitTableUpper 1 0 (fun _ => 1)).getD 256 0)
        ((getTosaConst32bitTableLower 1 0 (fun _ => 1)).getD 256 0) ∧
    reassemble32
        ((getTosaConst32bitTableUpper 1 0 (fun _ => 1)).getD 256 0)
        ((getTosaConst32bitTableLower 1 0 (fun _ => 1)).getD 256 0)
      ≤ 2147483647 ∧
    ((1 : ℚ) = 1 →
      reassemble32
        ((getTosaConst32bitTableUpper 1 0 (fun _ => 1)).getD 256 0)
        ((getTosaConst32bitTableLower 1 0 (fun _ => 1)).getD 256 0)
      = 2147483647) :=
  C4_reassembled_in_int32_range 1 0 (fun _ => 1) 256 (by norm_num)

/-- C4 counterexample: sampling the constant function -1.0 (input scale 1,
zero point 0), the entry pair at index 0 reassembles to `-2^31`, whose
magnitude exceeds `2^31 - 1` — refuting the claim that the reassembled value
never exceeds `2^31 - 1` in magnitude. -/
theorem C4_counterexample :
    2147483647 <
      |reassemble32 ((getTosaConst32bitTableUpper 1 0 (fun _ => -1)).getD 0 0)
        ((getTosaConst32bitTableLower 1 0 (fun _ => -1)).getD 0 0)| := by
  have hu : (getTosaConst32bitTableUpper 1 0 (fun _ => -1)).getD 0 0
      = tosaConst32bitTableUpperEntry 1 0 (fun _ => -1) ((0 : ℤ) - 256) := by
    simp only [getTosaConst32bitTableUpper]
    exact getD_map_range _ (by norm_num)
  have hl : (getTosaConst32bitTableLower 1 0 (fun _ => -1)).getD 0 0
      = tosaConst32bitTableLowerEntry 1 0 (fun _ => -1) ((0 : ℤ) - 256) := by
    simp only [getTosaConst32bitTableLower]
    exact getD_map_range _ (by norm_num)
  have hres : tosaConst32bitTableRescaled 1 0 (fun _ => -1) ((0 : ℤ) - 256)
      = -2147483648 := by
    norm_num [tosaConst32bitTableRescaled, roundAway, ratFloor_eq, min_def,
      max_def]
  have hue : tosaConst32bitTableUpperEntry 1 0 (fun _ => -1) ((0 : ℤ) - 256)
      = -32768 := by
    simp only [tosaConst32bitTableUpperEntry, hres]
    norm_num [toInt16]
  have hle : tosaConst32bitTableLowerEntry 1 0 (fun _ => -1) ((0 : ℤ) - 256)
      = -32768 := by
    simp only [tosaConst32bitTableLowerEntry, hres]
    norm_num [toInt16]
  rw [hu, hl, hue, hle]
  norm_num [reassemble32, toInt32]

end TosaLegalize
